import Mathlib

/-!
Verification of the YCtravel scavenger-hunt bot (src/app.py).

This file shallowly embeds the session/progress state machine and the
answer-evaluation engine of `handle_message` / `handle_follow` in app.py,
together with the static level catalog `LEVEL_DATA`, and proves the frozen
claims about them.

Modelling conventions:
* Strings are Lean `String`s (lists of unicode scalar values), matching
  Python `str` at the code-point level.
* Python `str.lower` / `str.upper` are modelled by character-wise
  `Char.toLower` / `Char.toUpper`, which map the basic-latin letter range
  exactly as Python does.  All cased characters appearing in the command
  tokens and the catalog data are basic-latin, the remaining characters
  are CJK and unaffected in both systems.
* Python `str.strip()` removes the unicode whitespace code points listed
  in `isPyWs` from both ends.
* `text.replace(c, '')` deletes every occurrence of `c`; the loop over the
  punctuation characters is modelled by `removeChars`, a fold of such
  single-character deletions.
* The persisted user row is an `Option String` (`none` = no row yet).  An
  SQL `UPDATE` on a missing row changes nothing, the `INSERT` in
  `get_user_level` creates the row.
* The webhook replies are modelled by `OutMsg`; `OutMsg.text` carries an
  `Option String` because `TextSendMessage(text=...)` receives whatever
  Python value is in the (nullable) database column.
* An exception that `handle_message` does not catch (the bare `int(...)`
  in the correct-answer branch) aborts the request before any reply or
  state write; the step function returns `none` in that case.
-/

/-- The unicode code points removed by Python `str.strip()`:
TAB LF VT FF CR, FS GS RS US, SPACE, NEL, NBSP, OGHAM SPACE,
EN QUAD .. HAIR SPACE (U+2000-U+200A), LS, PS, NNBSP, MMSP,
IDEOGRAPHIC SPACE (U+3000). -/
def isPyWsNat (n : Nat) : Bool :=
  n == 9 || n == 10 || n == 11 || n == 12 || n == 13 ||
  n == 28 || n == 29 || n == 30 || n == 31 || n == 32 ||
  n == 133 || n == 160 || n == 5760 ||
  (decide (8192 ≤ n) && decide (n ≤ 8202)) ||
  n == 8232 || n == 8233 || n == 8239 || n == 8287 || n == 12288

/-- Whitespace predicate of Python `str.strip()`, on characters. -/
def isPyWs (c : Char) : Bool := isPyWsNat c.toNat

/-- Python `str.strip()` on a list of characters: drop whitespace from
both ends. -/
def stripList (cs : List Char) : List Char :=
  ((cs.dropWhile isPyWs).reverse.dropWhile isPyWs).reverse

/-- Python `str.strip()`. -/
def pyStrip (s : String) : String := String.mk (stripList s.data)

/-- The punctuation characters removed by `clean_answer`
(app.py line 256): the ASCII and full-width periods, commas,
question/exclamation marks, semicolons, colons, quotes and corner
brackets, in source order. -/
def PUNCT : List Char :=
  ['.', ',', '?', '!', ';', ':', '"', '\'', '，', '。', '？', '！', '；', '：', '「', '」']

/-- A sequence of Python `text.replace(c, '')` deletions, one per
character of `cs`.  Each deletion removes every occurrence of that
character. -/
def removeChars (cs : List Char) (l : List Char) : List Char :=
  cs.foldl (fun acc c => acc.filter (fun x => !(x == c))) l

/-- The two space characters removed at the end of `clean_answer`
(app.py line 259): full-width space, then ASCII space. -/
def SPACES : List Char := ['　', ' ']

/-- Character-list core of `clean_answer` (app.py lines 253-260):
lowercase, strip, delete the punctuation characters, delete full-width
and ASCII spaces. -/
def cleanList (cs : List Char) : List Char :=
  removeChars SPACES (removeChars PUNCT (stripList (cs.map Char.toLower)))

/-- App.py `clean_answer`: answer normalization. -/
def clean_answer (s : String) : String := String.mk (cleanList s.data)

/-- App.py line 300, `user_input.strip().upper()`. -/
def stripUpper (s : String) : String :=
  String.mk ((stripList s.data).map Char.toUpper)

/-- Python `int(s)` for the engine's numeric level suffixes: defined on
non-empty all-digit strings, raises (returns `none`) otherwise. -/
def pyInt (s : String) : Option Nat :=
  if !s.data.isEmpty && s.data.all Char.isDigit then
    some (s.data.foldl (fun a c => a * 10 + (c.toNat - 48)) 0)
  else none

/-- Python `str.zfill(2)`: left-pad with zeros to width two. -/
def zfill2 (s : String) : String :=
  if s.length ≥ 2 then s else String.mk (List.replicate (2 - s.length) '0' ++ s.data)

/-- App.py lines 405-406 / 478-480: `'L' + str(num + 1).zfill(2)`. -/
def incrId (n : Nat) : String := "L" ++ zfill2 (toString (n + 1))

/-- App.py lines 404-408: the successor id computed from the numeric
suffix of `base`, with the `try/except ValueError` fallback to
`COMPLETED`. -/
def nextIdOf (base : String) : String :=
  match pyInt (base.drop 1) with
  | some n => incrId n
  | none => "COMPLETED"

/-- Python `current_state.split('_')[0]` (app.py line 380): the characters
before the first underscore (the whole string when there is none). -/
def baseOf (s : String) : String := String.mk (s.data.takeWhile (fun c => !(c == '_')))

/-- Python `s.endswith(t)`, at the code-point level. -/
def pyEndsWith (s t : String) : Bool := t.data.isSuffixOf s.data

/-- One entry of the static `LEVEL_DATA` dict (app.py lines 45-100). -/
structure LevelSpec where
  intro_text : String
  question : String
  question_image : Option String
  answer : String
  next_clue : String
  next_clue_image : Option String
  next_level_id : String
deriving DecidableEq, Repr

/-- One row of the `levels` table, as returned by `get_level_details`
(app.py lines 233-242).  Nullable columns are `Option`s. -/
structure LevelRecord where
  level_id : String
  intro_text : Option String
  question_text : String
  question_image_url : Option String
  correct_answer : String
  next_clue_text : Option String
  next_clue_image_url : Option String
deriving DecidableEq, Repr

def spec01 : LevelSpec :=
  { intro_text := "【L01 任務啟動】您已經踏上了旅途的起點。請抬頭看看指標，找到第一個線索！"
    question := "圓山站的日文拼音是什麼？（出捷運站時，有聽到廣播嗎？），請輸入羅馬拼音。"
    question_image := none
    answer := "Maruyama"
    next_clue := "✅ 答對了！從圓山啟程，接下來，我們要走進知識與禮樂的門。\n\n請前往https://maps.app.goo.gl/tTZJFnZTRwAq2f36A"
    next_clue_image := none
    next_level_id := "L02" }

def spec02 : LevelSpec :=
  { intro_text := "【L02 知識之門】現在您站在知識的殿堂前，這些古老的符號將引導您進入文化的深處。"
    question := "🙏🎸🏹🐴🧮✈️ 這六個符號分別代表什麼？"
    question_image := none
    answer := "禮樂射御書數"
    next_clue := "✅ 很好！你已通過學問之門。下一站，前往信仰與教化交會之地。\n\n請前往https://maps.app.goo.gl/gD9w5eFzRzJ8fX9A7"
    next_clue_image := none
    next_level_id := "L03" }

def spec03 : LevelSpec :=
  { intro_text := "【L03 神祇的守護】您已來到庇佑眾生的聖地。請在外圍仔細觀察，古老的碑文藏著此地的秘密。"
    question := "側城牆邊的碑文，碑文上刻著甚麼字？"
    question_image := none
    answer := "保安"
    next_clue := "✅ 恭喜解鎖 L04！請回到保安宮正門對面，找到圖片中的石碑，石碑後方草叢藏著下一關的線索!"
    next_clue_image := none
    next_level_id := "L04" }

def spec04 : LevelSpec :=
  { intro_text := "【L04 藏匿的線索】請找到目標石碑，只有將眼光放低，才能發現探險隊留下的暗號！"
    question := "請依照取得的線索，解開謎底"
    question_image := some "https://raw.githubusercontent.com/12eeee1/YCtravel/refs/heads/master/images/04.jpg"
    answer := "頂"
    next_clue := "✅ 恭喜解鎖 L05！請前往樹人書院解開下一關謎題。"
    next_clue_image := none
    next_level_id := "L05" }

def spec05 : LevelSpec :=
  { intro_text := "【L05 書院迷蹤】在古老的書院中，有一份實體寶藏等待著您。找到它，才能拿到真正的謎題卡。"
    question := "請到指定位置尋找實體寶藏、並從中獲取題目"
    question_image := none
    answer := "鳳梨"
    next_clue := "看不太懂下面這張圖片想表達什麼嗎？ 前往下一個地點找看看線索吧！\n\n請前往https://maps.app.goo.gl/tTZJFnZTRwAq2f36A"
    next_clue_image := none
    next_level_id := "L06" }

def spec06 : LevelSpec :=
  { intro_text := "【L06 終極解密】這是您最後的挑戰！結合您目前所有的發現，解開這串數字背後的意義。"
    question := "解開題目後，可以跟我確認答案(不須輸入空格、標點符號)"
    question_image := some "https://raw.githubusercontent.com/12eeee1/YCtravel/refs/heads/master/images/05.jpg"
    answer := "53878337515"
    next_clue := "🎉 恭喜您完成所有關卡，探險成功！"
    next_clue_image := none
    next_level_id := "COMPLETED" }

/-- The static `LEVEL_DATA` dict of app.py, as a lookup function. -/
def LEVEL_DATA (id : String) : Option LevelSpec :=
  if id == "L01" then some spec01
  else if id == "L02" then some spec02
  else if id == "L03" then some spec03
  else if id == "L04" then some spec04
  else if id == "L05" then some spec05
  else if id == "L06" then some spec06
  else none

/-- Seeding of the `levels` table from `LEVEL_DATA` (`setup_db`,
app.py lines 162-201): the row stores intro/question/image/answer/clue
columns; `next_level_id` is not persisted. -/
def toRecord (id : String) (sp : LevelSpec) : LevelRecord :=
  { level_id := id
    intro_text := some sp.intro_text
    question_text := sp.question
    question_image_url := sp.question_image
    correct_answer := sp.answer
    next_clue_text := some sp.next_clue
    next_clue_image_url := sp.next_clue_image }

/-- The catalog as `get_level_details` sees it after `setup_db` has
seeded the database from `LEVEL_DATA`. -/
def dbCatalog (id : String) : Option LevelRecord := (LEVEL_DATA id).map (toRecord id)

/-- An outbound LINE message directive.  `text` carries the (possibly
`None`) Python value handed to `TextSendMessage`; `image` carries
`original_content_url` and `preview_image_url`. -/
inductive OutMsg where
  | text (body : Option String)
  | image (url : String) (preview : String)
deriving DecidableEq, Repr

/-- Shorthand for a text message with a definite body. -/
def txt (s : String) : OutMsg := OutMsg.text (some s)

/-- Python truthiness test `if x:` on an optional string column,
followed by an image directive when truthy (app.py lines 352-358 etc.). -/
def imgOpt : Option String → List OutMsg
  | some u => if u == "" then [] else [OutMsg.image u u]
  | none => []

/-- Truthiness-guarded intro text (app.py lines 427-428). -/
def introOpt : Option String → List OutMsg
  | some t => if t == "" then [] else [OutMsg.text (some t)]
  | none => []

/-- The outcome of processing one inbound event: the user row after the
event, the sequence of state tokens written to the store (INSERT or
UPDATE), the ordered outbound messages, and whether the event was judged
a correct answer. -/
structure StepResult where
  store : Option String
  writes : List String
  replies : List OutMsg
  correct : Bool
deriving DecidableEq, Repr

def WELCOME_MESSAGE : String :=
  "🌿 歡迎來到《圓山探險隊》。\n這是一場用「腳」閱讀的旅程，\n也是一場用「心」傾聽的課程。\n\n當你準備好，\n請輸入「START」或「開始」展開旅程，\n讓故事，從圓山的風裡開始說起。"

def msgResetDone : String :=
  "🕵️‍♂️ **進度已重設！** 您已回到起始畫面，請輸入「START」展開旅程。"

def msgCompleted : String :=
  "🎉 恭喜您已完成所有挑戰！如果您想重新開始，請輸入「RESET」或「重置」。"

def msgStartBanner : String := "🚀 旅程開始！祝您探險愉快。"

def msgStartFail : String := "❌ 遊戲啟動失敗：找不到 L01 關卡數據。"

def msgAskStart : String := "請輸入「START」或「開始」以展開您的圓山探險旅程。"

def msgSysErr : String := "🚨 遊戲系統錯誤：找不到關卡數據。請聯繫管理員檢查資料庫初始化。"

def msgArrived : String := "📍 **確認到達！**"

def msgWaitReminder : String :=
  "請前往下一關地點，請到達後輸入「我到了」或「到」以開始下一關的謎題!"

def msgTravelPrompt : String :=
  "請抵達地點後，輸入「我到了」或「到」來領取下一關的謎題！"

def msgWrong : String := "❌ 答案不正確，請再仔細觀察現場或提示。"

def msgUnknownState : String :=
  "🤔 狀態錯誤，請輸入「RESET」或「重置」來重新開始遊戲。"

/-- The final clue referenced statically as `LEVEL_DATA['L06']['next_clue']`
in the waiting-state terminal branch (app.py line 444). -/
def staticFinalClue : String := (((LEVEL_DATA "L06").map (·.next_clue)).getD "")

/-- App.py `handle_message` after `get_user_level` has run: `cs` is the
user's current state, `w1` the writes already performed by
`get_user_level` (the WELCOME INSERT for a fresh user), `su` is
`user_input.strip().upper()` and `norm` is `clean_answer(user_input)`.
Returns `none` when an uncaught exception aborts the request. -/
def handleFetched (cat : String → Option LevelRecord) (cs : String)
    (w1 : List String) (su norm : String) : Option StepResult :=
  if cs == "COMPLETED" then
    some { store := some cs, writes := w1, replies := [txt msgCompleted], correct := false }
  else if cs == "WELCOME" then
    if su == "START" || su == "開始" then
      -- the state is updated to L01_ANSWERING before the catalog lookup
      match cat "L01" with
      | some r =>
        some { store := some "L01_ANSWERING", writes := w1 ++ ["L01_ANSWERING"]
               replies := [txt msgStartBanner, OutMsg.text r.intro_text,
                           txt ("【L01 挑戰】\n" ++ r.question_text)]
                          ++ imgOpt r.question_image_url
               correct := false }
      | none =>
        some { store := some "L01_ANSWERING", writes := w1 ++ ["L01_ANSWERING"]
               replies := [txt msgStartFail], correct := false }
    else
      some { store := some cs, writes := w1, replies := [txt msgAskStart], correct := false }
  else
    match cat (baseOf cs) with
    | none =>
      some { store := some cs, writes := w1, replies := [txt msgSysErr], correct := false }
    | some r =>
      if pyEndsWith cs "_WAITING" then
        if norm == "我到了" || norm == "到" then
          match cat (nextIdOf (baseOf cs)) with
          | some nr =>
            some { store := some (nextIdOf (baseOf cs) ++ "_ANSWERING")
                   writes := w1 ++ [nextIdOf (baseOf cs) ++ "_ANSWERING"]
                   replies := [txt msgArrived] ++ introOpt nr.intro_text
                              ++ [txt ("【" ++ nextIdOf (baseOf cs) ++ " 挑戰】\n"
                                       ++ nr.question_text)]
                              ++ imgOpt nr.question_image_url
                   correct := false }
          | none =>
            some { store := some "COMPLETED", writes := w1 ++ ["COMPLETED"]
                   replies := [txt staticFinalClue], correct := false }
        else
          some { store := some cs, writes := w1, replies := [txt msgWaitReminder], correct := false }
      else if pyEndsWith cs "_ANSWERING" then
        if norm == clean_answer r.correct_answer then
          if baseOf cs == "L06" then
            some { store := some "COMPLETED", writes := w1 ++ ["COMPLETED"]
                   replies := [OutMsg.text r.next_clue_text], correct := true }
          else
            -- the bare int(base_level_id[1:]) raises on a non-numeric suffix
            match pyInt ((baseOf cs).drop 1) with
            | none => none
            | some _ =>
              some { store := some (baseOf cs ++ "_WAITING")
                     writes := w1 ++ [baseOf cs ++ "_WAITING"]
                     replies := [OutMsg.text r.next_clue_text] ++ imgOpt r.next_clue_image_url
                                ++ [txt msgTravelPrompt]
                     correct := true }
        else
          some { store := some cs, writes := w1
                 replies := [txt msgWrong, OutMsg.text r.intro_text,
                             txt ("【當前挑戰：" ++ baseOf cs ++ "】\n"
                                  ++ r.question_text)]
                            ++ imgOpt r.question_image_url
                 correct := false }
      else
        some { store := some cs, writes := w1, replies := [txt msgUnknownState], correct := false }

/-- App.py `handle_message` (lines 296-528): reset check first, then
`get_user_level` (which INSERTs a WELCOME row for an unknown user), then
the state machine. -/
def handleMessage (cat : String → Option LevelRecord) (stored : Option String)
    (input : String) : Option StepResult :=
  if stripUpper input == "RESET" || stripUpper input == "重置" then
    some { store := stored.map (fun _ => "WELCOME"), writes := ["WELCOME"]
           replies := [txt msgResetDone, txt WELCOME_MESSAGE], correct := false }
  else
    -- get_user_level: an existing row is read back, a missing row is
    -- created with state WELCOME (one INSERT write)
    handleFetched cat (stored.getD "WELCOME")
      (if stored.isSome then [] else ["WELCOME"]) (stripUpper input) (clean_answer input)

/-- App.py `handle_follow` (lines 282-292): initialize the row if absent,
then always send the welcome message. -/
def handleFollow (stored : Option String) : StepResult :=
  match stored with
  | some s =>
    { store := some s, writes := [], replies := [txt WELCOME_MESSAGE], correct := false }
  | none =>
    { store := some "WELCOME", writes := ["WELCOME"], replies := [txt WELCOME_MESSAGE]
      correct := false }

/-- The scripted playthrough of the six-level catalog: START, then for
each level the correct answer followed (on non-terminal levels) by the
arrival-confirmation token. -/
def gameScript : List String :=
  ["START", "Maruyama", "我到了", "禮樂射御書數", "到", "保安", "到", "頂", "到", "鳳梨", "到",
   "53878337515"]

/-- Fold `handleMessage` over a list of inbound texts, tracking the user
row and the number of events judged a correct answer.  An uncaught
exception aborts its request, leaving the row unchanged. -/
def runCount (cat : String → Option LevelRecord) :
    Option String × Nat → List String → Option String × Nat
  | acc, [] => acc
  | (st, k), i :: rest =>
    match handleMessage cat st i with
    | some r => runCount cat (r.store, k + (if r.correct then 1 else 0)) rest
    | none => runCount cat (st, k) rest

/-- The legal state tokens relative to a catalog: WELCOME, COMPLETED, and
the ANSWERING/WAITING tokens of catalogued level ids. -/
def validWrite (cat : String → Option LevelRecord) (w : String) : Prop :=
  w = "WELCOME" ∨ w = "COMPLETED" ∨
    ∃ id r, cat id = some r ∧ (w = id ++ "_ANSWERING" ∨ w = id ++ "_WAITING")

/-- The successor the engine uses when granting the next question after
an arrival confirmation (app.py lines 404-414): the numeric-suffix
increment of the base id, demoted to COMPLETED when the catalog has no
row for the incremented id. -/
def engineSuccessor (cat : String → Option LevelRecord) (base : String) : String :=
  if (cat (nextIdOf base)).isSome then nextIdOf base else "COMPLETED"

/-- The keep-predicate of `clean_answer`'s two deletion passes: a
character survives them iff it is neither a removed space nor a removed
punctuation mark. -/
def keepChar (c : Char) : Bool := !(SPACES.contains c) && !(PUNCT.contains c)

/-- Strings whose whitespace characters are only the ASCII space and the
full-width space, i.e. exactly the whitespace `clean_answer` deletes
outright. -/
def onlySpaceWs (s : String) : Prop :=
  ∀ c ∈ s.data, isPyWs c = true → SPACES.contains c = true

/-- The reset branch is not taken when strip().upper() of the input is
neither RESET nor the localized token. -/
theorem notReset {input : String} (h1 : stripUpper input ≠ "RESET")
    (h2 : stripUpper input ≠ "重置") :
    (stripUpper input == "RESET" || stripUpper input == "重置") = false := by
  rw [Bool.or_eq_false_iff]
  exact ⟨beq_eq_false_iff_ne.mpr h1, beq_eq_false_iff_ne.mpr h2⟩

/-- C7: starting a fresh user and sending START, then each level's correct
answer and (on non-terminal levels) the arrival confirmation, ends in the
stored state COMPLETED, after exactly 6 events judged correct for the
6-level catalog, and no proper prefix of the script already reaches
COMPLETED. -/
theorem linear_chain_completes :
    runCount dbCatalog (none, 0) gameScript = (some "COMPLETED", 6) ∧
    ((List.range 12).all (fun k =>
      !((runCount dbCatalog (none, 0) (gameScript.take k)).1 == some "COMPLETED"))) = true := by
  exact ⟨by decide, by decide⟩

/-- C10: a follow event always replies with the welcome text; it creates
a WELCOME row when none exists and leaves an existing row untouched. -/
theorem follow_welcomes_and_preserves (stored : Option String) :
    (handleFollow stored).replies = [txt WELCOME_MESSAGE] ∧
    (stored = none → (handleFollow stored).store = some "WELCOME" ∧
      (handleFollow stored).writes = ["WELCOME"]) ∧
    (∀ s, stored = some s → (handleFollow stored).store = some s ∧
      (handleFollow stored).writes = []) := by
  cases stored <;> simp [handleFollow]

theorem follow_welcomes_and_preserves_witness :
    (handleFollow (some "L03_WAITING")).store = some "L03_WAITING" ∧
    (handleFollow none).store = some "WELCOME" :=
  ⟨((follow_welcomes_and_preserves (some "L03_WAITING")).2.2 "L03_WAITING" rfl).1,
   ((follow_welcomes_and_preserves none).2.1 rfl).1⟩

/-- C5: for every level of the catalog, the successor the engine computes
coincides with the `next_level_id` stored on the static record, and the
terminal test the correct-answer branch uses (base id = L06) coincides
with the record's COMPLETED sentinel. -/
theorem successor_matches_record (L : String) (sp : LevelSpec)
    (h : LEVEL_DATA L = some sp) :
    engineSuccessor dbCatalog L = sp.next_level_id ∧
    ((L == "L06") = (sp.next_level_id == "COMPLETED")) := by
  unfold LEVEL_DATA at h
  split_ifs at h with h1 h2 h3 h4 h5 h6
  · obtain rfl := eq_of_beq h1; injection h with h0; subst h0; exact ⟨by decide, by decide⟩
  · obtain rfl := eq_of_beq h2; injection h with h0; subst h0; exact ⟨by decide, by decide⟩
  · obtain rfl := eq_of_beq h3; injection h with h0; subst h0; exact ⟨by decide, by decide⟩
  · obtain rfl := eq_of_beq h4; injection h with h0; subst h0; exact ⟨by decide, by decide⟩
  · obtain rfl := eq_of_beq h5; injection h with h0; subst h0; exact ⟨by decide, by decide⟩
  · obtain rfl := eq_of_beq h6; injection h with h0; subst h0; exact ⟨by decide, by decide⟩

theorem successor_matches_record_witness :
    engineSuccessor dbCatalog "L01" = "L02" :=
  (successor_matches_record "L01" spec01 (by decide)).1

/-- C3 counterexample: the input RESET。 normalizes to the reset token
(clean_answer strips the full-width period), yet the engine, which
compares strip().upper() against the literal tokens, does not reset: in
state COMPLETED it replies with the completion notice and the state is
not forced to WELCOME. -/
theorem reset_normalized_counterexample :
    clean_answer "RESET。" = clean_answer "RESET" ∧
    handleMessage dbCatalog (some "COMPLETED") "RESET。" =
      some { store := some "COMPLETED", writes := [], replies := [txt msgCompleted]
             correct := false } ∧
    (handleMessage dbCatalog (some "COMPLETED") "RESET。").map (·.store) ≠
      some (some "WELCOME") := by
  exact ⟨by decide, by decide, by decide⟩

/-- C3 amended: an input whose strip().upper() is exactly RESET or 重置
forces the stored state to WELCOME (for any catalog and any stored row,
before any other check) and replies with the reset confirmation followed
by the welcome text. -/
theorem reset_is_universal (cat : String → Option LevelRecord)
    (stored : Option String) (input : String)
    (h : stripUpper input = "RESET" ∨ stripUpper input = "重置") :
    handleMessage cat stored input =
      some { store := stored.map (fun _ => "WELCOME"), writes := ["WELCOME"]
             replies := [txt msgResetDone, txt WELCOME_MESSAGE], correct := false } := by
  unfold handleMessage
  rcases h with h | h <;> rw [h] <;> rfl

theorem reset_is_universal_witness :
    handleMessage dbCatalog (some "L04_WAITING") " Reset " =
      some { store := some "WELCOME", writes := ["WELCOME"]
             replies := [txt msgResetDone, txt WELCOME_MESSAGE], correct := false } :=
  reset_is_universal dbCatalog (some "L04_WAITING") " Reset " (Or.inl (by decide))

/-- C6 counterexample: on the WELCOME + START path with the first level's
record absent, the engine emits the start-failure message, but the stored
state has already been mutated to L01_ANSWERING. -/
theorem catalog_miss_start_counterexample :
    handleMessage (fun _ => none) (some "WELCOME") "START" =
      some { store := some "L01_ANSWERING", writes := ["L01_ANSWERING"]
             replies := [txt msgStartFail], correct := false } ∧
    (handleMessage (fun _ => none) (some "WELCOME") "START").map (·.store) ≠
      some (some "WELCOME") := by
  exact ⟨by decide, by decide⟩

/-- C6 amended: (i) when the record for the level implied by the user's
current non-WELCOME, non-COMPLETED state cannot be resolved, the engine
emits the system-error message and performs no state write; (ii) on the
WELCOME + START path with the first level's record absent it emits a
start-failure message but has already written L01_ANSWERING; (iii) on the
arrival-advance path a missing successor record is treated as completion
(state written to COMPLETED with the static final clue), not as an
error. -/
theorem catalog_miss_behaviour :
    (∀ (cat : String → Option LevelRecord) (cs input : String),
      stripUpper input ≠ "RESET" → stripUpper input ≠ "重置" →
      cs ≠ "COMPLETED" → cs ≠ "WELCOME" → cat (baseOf cs) = none →
      handleMessage cat (some cs) input =
        some { store := some cs, writes := [], replies := [txt msgSysErr]
               correct := false }) ∧
    (∀ (cat : String → Option LevelRecord) (input : String),
      (stripUpper input = "START" ∨ stripUpper input = "開始") → cat "L01" = none →
      handleMessage cat (some "WELCOME") input =
        some { store := some "L01_ANSWERING", writes := ["L01_ANSWERING"]
               replies := [txt msgStartFail], correct := false }) ∧
    (∀ (cat : String → Option LevelRecord) (cs input : String) (r : LevelRecord),
      stripUpper input ≠ "RESET" → stripUpper input ≠ "重置" →
      cs ≠ "COMPLETED" → cs ≠ "WELCOME" → pyEndsWith cs "_WAITING" = true →
      cat (baseOf cs) = some r →
      (clean_answer input = "我到了" ∨ clean_answer input = "到") →
      cat (nextIdOf (baseOf cs)) = none →
      handleMessage cat (some cs) input =
        some { store := some "COMPLETED", writes := ["COMPLETED"]
               replies := [txt staticFinalClue], correct := false }) := by
  refine ⟨?_, ?_, ?_⟩
  · intro cat cs input h1 h2 hC hW hcat
    unfold handleMessage
    rw [notReset h1 h2]
    simp only [Option.getD_some, Option.isSome_some, reduceIte]
    unfold handleFetched
    rw [beq_eq_false_iff_ne.mpr hC, beq_eq_false_iff_ne.mpr hW, hcat]
    rfl
  · intro cat input h hL
    have hres : (stripUpper input == "RESET" || stripUpper input == "重置") = false := by
      rcases h with h | h <;> rw [h] <;> decide
    have hst : (stripUpper input == "START" || stripUpper input == "開始") = true := by
      rcases h with h | h <;> rw [h] <;> decide
    unfold handleMessage
    rw [hres]
    simp only [Option.getD_some, Option.isSome_some, reduceIte]
    unfold handleFetched
    rw [hst, hL]
    rfl
  · intro cat cs input r h1 h2 hC hW hE hcat harr hnext
    unfold handleMessage
    rw [notReset h1 h2]
    simp only [Option.getD_some, Option.isSome_some, reduceIte]
    unfold handleFetched
    rw [beq_eq_false_iff_ne.mpr hC, beq_eq_false_iff_ne.mpr hW, hcat, hE, hnext]
    rcases harr with h | h <;> rw [h] <;> rfl

/-- Evaluation of a non-reset message in state L01_ANSWERING. -/
theorem evalAnswering01 (input : String) (h1 : stripUpper input ≠ "RESET")
    (h2 : stripUpper input ≠ "重置") :
    handleMessage dbCatalog (some "L01_ANSWERING") input =
      if clean_answer input == clean_answer spec01.answer then
        some { store := some ("L01" ++ "_WAITING"), writes := ["L01" ++ "_WAITING"]
               replies := [txt spec01.next_clue] ++ imgOpt spec01.next_clue_image
                          ++ [txt msgTravelPrompt]
               correct := true }
      else
        some { store := some "L01_ANSWERING", writes := []
               replies := [txt msgWrong, txt spec01.intro_text,
                           txt ("【當前挑戰：" ++ "L01" ++ "】\n" ++ spec01.question)]
                          ++ imgOpt spec01.question_image
               correct := false } := by
  unfold handleMessage
  rw [notReset h1 h2]
  simp only [Option.getD_some, Option.isSome_some, reduceIte]
  unfold handleFetched
  rw [show (("L01_ANSWERING" : String) == "COMPLETED") = false from by decide,
      show (("L01_ANSWERING" : String) == "WELCOME") = false from by decide,
      show baseOf "L01_ANSWERING" = "L01" from by decide,
      show dbCatalog "L01" = some (toRecord "L01" spec01) from by decide,
      show pyEndsWith "L01_ANSWERING" "_WAITING" = false from by decide,
      show pyEndsWith "L01_ANSWERING" "_ANSWERING" = true from by decide,
      show (("L01" : String) == "L06") = false from by decide,
      show pyInt ("L01".drop 1) = some 1 from by decide]
  simp [txt, imgOpt, toRecord]

/-- Evaluation of a non-reset message in state L02_ANSWERING. -/
theorem evalAnswering02 (input : String) (h1 : stripUpper input ≠ "RESET")
    (h2 : stripUpper input ≠ "重置") :
    handleMessage dbCatalog (some "L02_ANSWERING") input =
      if clean_answer input == clean_answer spec02.answer then
        some { store := some ("L02" ++ "_WAITING"), writes := ["L02" ++ "_WAITING"]
               replies := [txt spec02.next_clue] ++ imgOpt spec02.next_clue_image
                          ++ [txt msgTravelPrompt]
               correct := true }
      else
        some { store := some "L02_ANSWERING", writes := []
               replies := [txt msgWrong, txt spec02.intro_text,
                           txt ("【當前挑戰：" ++ "L02" ++ "】\n" ++ spec02.question)]
                          ++ imgOpt spec02.question_image
               correct := false } := by
  unfold handleMessage
  rw [notReset h1 h2]
  simp only [Option.getD_some, Option.isSome_some, reduceIte]
  unfold handleFetched
  rw [show (("L02_ANSWERING" : String) == "COMPLETED") = false from by decide,
      show (("L02_ANSWERING" : String) == "WELCOME") = false from by decide,
      show baseOf "L02_ANSWERING" = "L02" from by decide,
      show dbCatalog "L02" = some (toRecord "L02" spec02) from by decide,
      show pyEndsWith "L02_ANSWERING" "_WAITING" = false from by decide,
      show pyEndsWith "L02_ANSWERING" "_ANSWERING" = true from by decide,
      show (("L02" : String) == "L06") = false from by decide,
      show pyInt ("L02".drop 1) = some 2 from by decide]
  simp [txt, imgOpt, toRecord]

/-- Evaluation of a non-reset message in state L03_ANSWERING. -/
theorem evalAnswering03 (input : String) (h1 : stripUpper input ≠ "RESET")
    (h2 : stripUpper input ≠ "重置") :
    handleMessage dbCatalog (some "L03_ANSWERING") input =
      if clean_answer input == clean_answer spec03.answer then
        some { store := some ("L03" ++ "_WAITING"), writes := ["L03" ++ "_WAITING"]
               replies := [txt spec03.next_clue] ++ imgOpt spec03.next_clue_image
                          ++ [txt msgTravelPrompt]
               correct := true }
      else
        some { store := some "L03_ANSWERING", writes := []
               replies := [txt msgWrong, txt spec03.intro_text,
                           txt ("【當前挑戰：" ++ "L03" ++ "】\n" ++ spec03.question)]
                          ++ imgOpt spec03.question_image
               correct := false } := by
  unfold handleMessage
  rw [notReset h1 h2]
  simp only [Option.getD_some, Option.isSome_some, reduceIte]
  unfold handleFetched
  rw [show (("L03_ANSWERING" : String) == "COMPLETED") = false from by decide,
      show (("L03_ANSWERING" : String) == "WELCOME") = false from by decide,
      show baseOf "L03_ANSWERING" = "L03" from by decide,
      show dbCatalog "L03" = some (toRecord "L03" spec03) from by decide,
      show pyEndsWith "L03_ANSWERING" "_WAITING" = false from by decide,
      show pyEndsWith "L03_ANSWERING" "_ANSWERING" = true from by decide,
      show (("L03" : String) == "L06") = false from by decide,
      show pyInt ("L03".drop 1) = some 3 from by decide]
  simp [txt, imgOpt, toRecord]

/-- Evaluation of a non-reset message in state L04_ANSWERING. -/
theorem evalAnswering04 (input : String) (h1 : stripUpper input ≠ "RESET")
    (h2 : stripUpper input ≠ "重置") :
    handleMessage dbCatalog (some "L04_ANSWERING") input =
      if clean_answer input == clean_answer spec04.answer then
        some { store := some ("L04" ++ "_WAITING"), writes := ["L04" ++ "_WAITING"]
               replies := [txt spec04.next_clue] ++ imgOpt spec04.next_clue_image
                          ++ [txt msgTravelPrompt]
               correct := true }
      else
        some { store := some "L04_ANSWERING", writes := []
               replies := [txt msgWrong, txt spec04.intro_text,
                           txt ("【當前挑戰：" ++ "L04" ++ "】\n" ++ spec04.question)]
                          ++ imgOpt spec04.question_image
               correct := false } := by
  unfold handleMessage
  rw [notReset h1 h2]
  simp only [Option.getD_some, Option.isSome_some, reduceIte]
  unfold handleFetched
  rw [show (("L04_ANSWERING" : String) == "COMPLETED") = false from by decide,
      show (("L04_ANSWERING" : String) == "WELCOME") = false from by decide,
      show baseOf "L04_ANSWERING" = "L04" from by decide,
      show dbCatalog "L04" = some (toRecord "L04" spec04) from by decide,
      show pyEndsWith "L04_ANSWERING" "_WAITING" = false from by decide,
      show pyEndsWith "L04_ANSWERING" "_ANSWERING" = true from by decide,
      show (("L04" : String) == "L06") = false from by decide,
      show pyInt ("L04".drop 1) = some 4 from by decide]
  simp [txt, imgOpt, toRecord]

/-- Evaluation of a non-reset message in state L05_ANSWERING. -/
theorem evalAnswering05 (input : String) (h1 : stripUpper input ≠ "RESET")
    (h2 : stripUpper input ≠ "重置") :
    handleMessage dbCatalog (some "L05_ANSWERING") input =
      if clean_answer input == clean_answer spec05.answer then
        some { store := some ("L05" ++ "_WAITING"), writes := ["L05" ++ "_WAITING"]
               replies := [txt spec05.next_clue] ++ imgOpt spec05.next_clue_image
                          ++ [txt msgTravelPrompt]
               correct := true }
      else
        some { store := some "L05_ANSWERING", writes := []
               replies := [txt msgWrong, txt spec05.intro_text,
                           txt ("【當前挑戰：" ++ "L05" ++ "】\n" ++ spec05.question)]
                          ++ imgOpt spec05.question_image
               correct := false } := by
  unfold handleMessage
  rw [notReset h1 h2]
  simp only [Option.getD_some, Option.isSome_some, reduceIte]
  unfold handleFetched
  rw [show (("L05_ANSWERING" : String) == "COMPLETED") = false from by decide,
      show (("L05_ANSWERING" : String) == "WELCOME") = false from by decide,
      show baseOf "L05_ANSWERING" = "L05" from by decide,
      show dbCatalog "L05" = some (toRecord "L05" spec05) from by decide,
      show pyEndsWith "L05_ANSWERING" "_WAITING" = false from by decide,
      show pyEndsWith "L05_ANSWERING" "_ANSWERING" = true from by decide,
      show (("L05" : String) == "L06") = false from by decide,
      show pyInt ("L05".drop 1) = some 5 from by decide]
  simp [txt, imgOpt, toRecord]

/-- Evaluation of a non-reset message in state L06_ANSWERING (terminal). -/
theorem evalAnswering06 (input : String) (h1 : stripUpper input ≠ "RESET")
    (h2 : stripUpper input ≠ "重置") :
    handleMessage dbCatalog (some "L06_ANSWERING") input =
      if clean_answer input == clean_answer spec06.answer then
        some { store := some "COMPLETED", writes := ["COMPLETED"]
               replies := [txt spec06.next_clue], correct := true }
      else
        some { store := some "L06_ANSWERING", writes := []
               replies := [txt msgWrong, txt spec06.intro_text,
                           txt ("【當前挑戰：" ++ "L06" ++ "】\n" ++ spec06.question)]
                          ++ imgOpt spec06.question_image
               correct := false } := by
  unfold handleMessage
  rw [notReset h1 h2]
  simp only [Option.getD_some, Option.isSome_some, reduceIte]
  unfold handleFetched
  rw [show (("L06_ANSWERING" : String) == "COMPLETED") = false from by decide,
      show (("L06_ANSWERING" : String) == "WELCOME") = false from by decide,
      show baseOf "L06_ANSWERING" = "L06" from by decide,
      show dbCatalog "L06" = some (toRecord "L06" spec06) from by decide,
      show pyEndsWith "L06_ANSWERING" "_WAITING" = false from by decide,
      show pyEndsWith "L06_ANSWERING" "_ANSWERING" = true from by decide,
      show (("L06" : String) == "L06") = true from by decide]
  simp [txt, imgOpt, toRecord]

/-- C1: for every catalog level, a correct answer while in
<L>_ANSWERING moves the state to L_WAITING with transition text,
optional transition image and the travel-confirmation prompt when L is
non-terminal; it moves the state to COMPLETED with the transition text
alone when L is the terminal level. -/
theorem correct_answer_transitions (L : String) (sp : LevelSpec)
    (hL : LEVEL_DATA L = some sp) (input : String)
    (hc : clean_answer input = clean_answer sp.answer)
    (h1 : stripUpper input ≠ "RESET") (h2 : stripUpper input ≠ "重置") :
    (sp.next_level_id ≠ "COMPLETED" →
      handleMessage dbCatalog (some (L ++ "_ANSWERING")) input =
        some { store := some (L ++ "_WAITING"), writes := [L ++ "_WAITING"]
               replies := [txt sp.next_clue] ++ imgOpt sp.next_clue_image
                          ++ [txt msgTravelPrompt]
               correct := true }) ∧
    (sp.next_level_id = "COMPLETED" →
      handleMessage dbCatalog (some (L ++ "_ANSWERING")) input =
        some { store := some "COMPLETED", writes := ["COMPLETED"]
               replies := [txt sp.next_clue], correct := true }) := by
  unfold LEVEL_DATA at hL
  split_ifs at hL with hif1 hif2 hif3 hif4 hif5 hif6
  · obtain rfl := eq_of_beq hif1; injection hL with h0; subst h0
    refine ⟨fun _ => ?_, fun hcon => absurd hcon (by decide)⟩
    rw [show ("L01" ++ "_ANSWERING" : String) = "L01_ANSWERING" from by decide,
        evalAnswering01 input h1 h2, beq_iff_eq.mpr hc]
    rfl
  · obtain rfl := eq_of_beq hif2; injection hL with h0; subst h0
    refine ⟨fun _ => ?_, fun hcon => absurd hcon (by decide)⟩
    rw [show ("L02" ++ "_ANSWERING" : String) = "L02_ANSWERING" from by decide,
        evalAnswering02 input h1 h2, beq_iff_eq.mpr hc]
    rfl
  · obtain rfl := eq_of_beq hif3; injection hL with h0; subst h0
    refine ⟨fun _ => ?_, fun hcon => absurd hcon (by decide)⟩
    rw [show ("L03" ++ "_ANSWERING" : String) = "L03_ANSWERING" from by decide,
        evalAnswering03 input h1 h2, beq_iff_eq.mpr hc]
    rfl
  · obtain rfl := eq_of_beq hif4; injection hL with h0; subst h0
    refine ⟨fun _ => ?_, fun hcon => absurd hcon (by decide)⟩
    rw [show ("L04" ++ "_ANSWERING" : String) = "L04_ANSWERING" from by decide,
        evalAnswering04 input h1 h2, beq_iff_eq.mpr hc]
    rfl
  · obtain rfl := eq_of_beq hif5; injection hL with h0; subst h0
    refine ⟨fun _ => ?_, fun hcon => absurd hcon (by decide)⟩
    rw [show ("L05" ++ "_ANSWERING" : String) = "L05_ANSWERING" from by decide,
        evalAnswering05 input h1 h2, beq_iff_eq.mpr hc]
    rfl
  · obtain rfl := eq_of_beq hif6; injection hL with h0; subst h0
    refine ⟨fun hcon => absurd (by decide : spec06.next_level_id = "COMPLETED") hcon,
            fun _ => ?_⟩
    rw [show ("L06" ++ "_ANSWERING" : String) = "L06_ANSWERING" from by decide,
        evalAnswering06 input h1 h2, beq_iff_eq.mpr hc]
    rfl

theorem correct_answer_transitions_witness :
    handleMessage dbCatalog (some "L01_ANSWERING") " MARU yama。" =
      some { store := some "L01_WAITING", writes := ["L01_WAITING"]
             replies := [txt spec01.next_clue, txt msgTravelPrompt], correct := true } :=
  (correct_answer_transitions "L01" spec01 (by decide) " MARU yama。"
    (by decide) (by decide) (by decide)).1 (by decide)

/-- C4: an incorrect (non-reset) answer while in <L>_ANSWERING performs
no state write, leaves the stored state unchanged, and re-emits the
wrong-answer notice, the level's intro text, its question and its
question image when present. -/
theorem wrong_answer_noop (L : String) (sp : LevelSpec)
    (hL : LEVEL_DATA L = some sp) (input : String)
    (hne : clean_answer input ≠ clean_answer sp.answer)
    (h1 : stripUpper input ≠ "RESET") (h2 : stripUpper input ≠ "重置") :
    handleMessage dbCatalog (some (L ++ "_ANSWERING")) input =
      some { store := some (L ++ "_ANSWERING"), writes := []
             replies := [txt msgWrong, txt sp.intro_text,
                         txt ("【當前挑戰：" ++ L ++ "】\n" ++ sp.question)]
                        ++ imgOpt sp.question_image
             correct := false } := by
  unfold LEVEL_DATA at hL
  split_ifs at hL with hif1 hif2 hif3 hif4 hif5 hif6
  · obtain rfl := eq_of_beq hif1; injection hL with h0; subst h0
    rw [show ("L01" ++ "_ANSWERING" : String) = "L01_ANSWERING" from by decide,
        evalAnswering01 input h1 h2, beq_eq_false_iff_ne.mpr hne]
    rfl
  · obtain rfl := eq_of_beq hif2; injection hL with h0; subst h0
    rw [show ("L02" ++ "_ANSWERING" : String) = "L02_ANSWERING" from by decide,
        evalAnswering02 input h1 h2, beq_eq_false_iff_ne.mpr hne]
    rfl
  · obtain rfl := eq_of_beq hif3; injection hL with h0; subst h0
    rw [show ("L03" ++ "_ANSWERING" : String) = "L03_ANSWERING" from by decide,
        evalAnswering03 input h1 h2, beq_eq_false_iff_ne.mpr hne]
    rfl
  · obtain rfl := eq_of_beq hif4; injection hL with h0; subst h0
    rw [show ("L04" ++ "_ANSWERING" : String) = "L04_ANSWERING" from by decide,
        evalAnswering04 input h1 h2, beq_eq_false_iff_ne.mpr hne]
    rfl
  · obtain rfl := eq_of_beq hif5; injection hL with h0; subst h0
    rw [show ("L05" ++ "_ANSWERING" : String) = "L05_ANSWERING" from by decide,
        evalAnswering05 input h1 h2, beq_eq_false_iff_ne.mpr hne]
    rfl
  · obtain rfl := eq_of_beq hif6; injection hL with h0; subst h0
    rw [show ("L06" ++ "_ANSWERING" : String) = "L06_ANSWERING" from by decide,
        evalAnswering06 input h1 h2, beq_eq_false_iff_ne.mpr hne]
    rfl

theorem wrong_answer_noop_witness :
    handleMessage dbCatalog (some "L03_ANSWERING") "a wrong answer!" =
      some { store := some "L03_ANSWERING", writes := []
             replies := [txt msgWrong, txt spec03.intro_text,
                         txt ("【當前挑戰：L03】\n" ++ spec03.question)]
             correct := false } :=
  wrong_answer_noop "L03" spec03 (by decide) "a wrong answer!"
    (by decide) (by decide) (by decide)

theorem catalog_miss_behaviour_witness :
    handleMessage (fun _ => none) (some "L03_ANSWERING") "hello" =
      some { store := some "L03_ANSWERING", writes := [], replies := [txt msgSysErr]
             correct := false } :=
  catalog_miss_behaviour.1 (fun _ => none) "L03_ANSWERING" "hello"
    (by decide) (by decide) (by decide) (by decide) rfl

/-- Characters valid for `Char.ofNat` below the surrogate range keep
their code point. -/
theorem toNat_ofNat_valid {n : Nat} (h : n < 55296) : (Char.ofNat n).toNat = n := by
  unfold Char.ofNat
  rw [dif_pos (Or.inl h)]
  rfl

theorem toLower_eq_of_upper {c : Char} (h1 : 65 ≤ c.toNat) (h2 : c.toNat ≤ 90) :
    Char.toLower c = Char.ofNat (c.toNat + 32) := by
  unfold Char.toLower
  rw [if_pos ⟨h1, h2⟩]

theorem toLower_eq_self_of_not_upper {c : Char} (h : ¬(65 ≤ c.toNat ∧ c.toNat ≤ 90)) :
    Char.toLower c = c := by
  unfold Char.toLower
  rw [if_neg h]

theorem toLower_idem (c : Char) : Char.toLower (Char.toLower c) = Char.toLower c := by
  by_cases h : 65 ≤ c.toNat ∧ c.toNat ≤ 90
  · rw [toLower_eq_of_upper h.1 h.2]
    apply toLower_eq_self_of_not_upper
    rw [toNat_ofNat_valid (by omega)]
    omega
  · rw [toLower_eq_self_of_not_upper h, toLower_eq_self_of_not_upper h]

/-- Lowercasing a basic-latin upper-case letter never yields whitespace. -/
theorem isPyWs_toLower_upper {c : Char} (h1 : 65 ≤ c.toNat) (h2 : c.toNat ≤ 90) :
    isPyWs (Char.toLower c) = false := by
  rw [toLower_eq_of_upper h1 h2]
  unfold isPyWs isPyWsNat
  rw [toNat_ofNat_valid (by omega)]
  simp only [Bool.or_eq_false_iff, beq_eq_false_iff_ne, ne_eq, Bool.and_eq_false_iff,
    decide_eq_false_iff_not, not_le]
  omega

/-- The fold of single-character deletions equals one filter against the
deleted set. -/
theorem removeChars_eq_filter (cs l : List Char) :
    removeChars cs l = l.filter (fun x => !(cs.contains x)) := by
  induction cs generalizing l with
  | nil =>
    show l = _
    rw [List.filter_eq_self.mpr]
    intro a _
    rfl
  | cons c cs ih =>
    show removeChars cs (l.filter fun x => !(x == c)) = _
    rw [ih, List.filter_filter]
    apply List.filter_congr
    intro a _
    show (!(cs.contains a) && !(a == c)) = !(List.contains (c :: cs) a)
    rw [show List.contains (c :: cs) a = (a == c || cs.contains a) from rfl]
    cases hc : a == c <;> cases hm : cs.contains a <;> rfl

/-- `clean_answer` as a single filter over the stripped, lowered text. -/
theorem cleanList_eq_filter_strip (cs : List Char) :
    cleanList cs = (stripList (cs.map Char.toLower)).filter keepChar := by
  unfold cleanList
  rw [removeChars_eq_filter, removeChars_eq_filter, List.filter_filter]
  rfl

theorem mem_of_mem_stripList {a : Char} {l : List Char} (h : a ∈ stripList l) : a ∈ l := by
  unfold stripList at h
  rw [List.mem_reverse] at h
  have h3 : a ∈ List.reverse (List.dropWhile isPyWs l) := (List.dropWhile_sublist _).mem h
  rw [List.mem_reverse] at h3
  exact (List.dropWhile_sublist _).mem h3

/-- Dropping a leading run of `p`-characters does not change a filter
that rejects every `p`-character of the list. -/
theorem filter_dropWhile {p q : Char → Bool} {l : List Char}
    (h : ∀ a ∈ l, p a = true → q a = false) :
    (l.dropWhile p).filter q = l.filter q := by
  induction l with
  | nil => rfl
  | cons a l ih =>
    by_cases hp : p a = true
    · rw [List.dropWhile_cons_of_pos hp,
        ih (fun b hb hpb => h b (List.mem_cons_of_mem a hb) hpb),
        List.filter_cons, h a (List.mem_cons_self a l) hp]
      rfl
    · rw [List.dropWhile_cons_of_neg hp]

/-- Stripping does not change a filter that rejects every whitespace
character of the list. -/
theorem filter_stripList {q : Char → Bool} {l : List Char}
    (h : ∀ a ∈ l, isPyWs a = true → q a = false) :
    (stripList l).filter q = l.filter q := by
  unfold stripList
  rw [List.filter_reverse]
  rw [filter_dropWhile (fun a ha hws =>
    h a ((List.dropWhile_sublist _).mem (List.mem_reverse.mp ha)) hws)]
  rw [List.filter_reverse, List.reverse_reverse]
  exact filter_dropWhile h

/-- On input whose whitespace is only the removed space characters,
`clean_answer` is exactly lowercasing followed by the keep-filter: the
strip pass removes nothing the filter would keep. -/
theorem cleanList_factor {cs : List Char}
    (h : ∀ c ∈ cs, isPyWs c = true → SPACES.contains c = true) :
    cleanList cs = (cs.map Char.toLower).filter keepChar := by
  rw [cleanList_eq_filter_strip]
  apply filter_stripList
  intro a ha hws
  obtain ⟨b, hb, rfl⟩ := List.mem_map.mp ha
  by_cases hup : 65 ≤ b.toNat ∧ b.toNat ≤ 90
  · rw [isPyWs_toLower_upper hup.1 hup.2] at hws
    exact absurd hws (by simp)
  · rw [toLower_eq_self_of_not_upper hup] at hws ⊢
    have hsp := h b hb hws
    unfold keepChar
    rw [hsp]
    rfl

/-- Two strings that agree after lowercasing and deleting the removed
punctuation and space characters normalize identically, provided their
whitespace consists only of those space characters. -/
theorem clean_eq_of_filter_eq {s t : String} (hs : onlySpaceWs s) (ht : onlySpaceWs t)
    (h : (s.data.map Char.toLower).filter keepChar
        = (t.data.map Char.toLower).filter keepChar) :
    clean_answer s = clean_answer t := by
  unfold clean_answer
  rw [cleanList_factor hs, cleanList_factor ht, h]

/-- The data of a constructed string, stated for a variable list so that
rewriting never forces evaluation of the list. -/
theorem string_data_mk (l : List Char) : (String.mk l).data = l := rfl

theorem toLower_mem_cleanList {c : Char} {cs : List Char} (h : c ∈ cleanList cs) :
    Char.toLower c = c := by
  rw [cleanList_eq_filter_strip] at h
  have h2 := mem_of_mem_stripList (List.mem_filter.mp h).1
  obtain ⟨b, _, rfl⟩ := List.mem_map.mp h2
  exact toLower_idem b

theorem keepChar_mem_cleanList {c : Char} {cs : List Char} (h : c ∈ cleanList cs) :
    keepChar c = true := by
  rw [cleanList_eq_filter_strip] at h
  exact (List.mem_filter.mp h).2

/-- A second `clean_answer` pass over an already-cleaned list only strips
residual edge whitespace. -/
theorem cleanList_cleanList (cs : List Char) :
    cleanList (cleanList cs) = stripList (cleanList cs) := by
  have hlow : (cleanList cs).map Char.toLower = cleanList cs := by
    rw [List.map_congr_left (fun a ha => toLower_mem_cleanList ha), List.map_id']
  rw [cleanList_eq_filter_strip, hlow]
  apply List.filter_eq_self.mpr
  intro a ha
  exact keepChar_mem_cleanList (mem_of_mem_stripList ha)

/-- Composition law: a second normalization equals stripping the first
normalization's result. -/
theorem clean_clean (s : String) :
    clean_answer (clean_answer s) = pyStrip (clean_answer s) := by
  unfold clean_answer pyStrip
  rw [string_data_mk, cleanList_cleanList]

theorem noWs_mem_cleanList {c : Char} {s : String} (hgood : onlySpaceWs s)
    (h : c ∈ cleanList s.data) : isPyWs c = false := by
  have hk := keepChar_mem_cleanList h
  rw [cleanList_factor hgood] at h
  obtain ⟨b, hb, rfl⟩ := List.mem_map.mp (List.mem_filter.mp h).1
  by_cases hup : 65 ≤ b.toNat ∧ b.toNat ≤ 90
  · exact isPyWs_toLower_upper hup.1 hup.2
  · rw [toLower_eq_self_of_not_upper hup] at hk ⊢
    by_contra hcon
    have hws : isPyWs b = true := by
      revert hcon
      cases isPyWs b <;> simp
    have hsp := hgood b hb hws
    unfold keepChar at hk
    rw [hsp] at hk
    exact absurd hk (by simp)

theorem stripList_eq_self {l : List Char} (h : ∀ a ∈ l, isPyWs a = false) :
    stripList l = l := by
  unfold stripList
  have h1 : List.dropWhile isPyWs l = l := by
    rw [List.dropWhile_eq_self_iff]
    intro hl
    rw [h _ (List.get_mem l 0 hl)]
    simp
  rw [h1]
  have h2 : List.dropWhile isPyWs l.reverse = l.reverse := by
    rw [List.dropWhile_eq_self_iff]
    intro hl
    rw [h _ (List.mem_reverse.mp (List.get_mem l.reverse 0 hl))]
    simp
  rw [h2, List.reverse_reverse]

theorem clean_idem_of_good (s : String) (h : onlySpaceWs s) :
    clean_answer (clean_answer s) = clean_answer s := by
  rw [clean_clean]
  unfold pyStrip clean_answer
  rw [string_data_mk]
  rw [stripList_eq_self (fun a ha => noWs_mem_cleanList h ha)]

/-- C8 counterexample: clean_answer is not idempotent.  In ".\tabc" the
leading period shields the tab from the strip pass; the first pass
removes the period, the second pass then strips the now-leading tab. -/
theorem normalize_idempotent_counterexample :
    clean_answer ".\tabc" = "\tabc" ∧
    clean_answer (clean_answer ".\tabc") = "abc" ∧
    clean_answer (clean_answer ".\tabc") ≠ clean_answer ".\tabc" := by
  exact ⟨by decide, by decide, by decide⟩

/-- C8 amended: a second application of clean_answer equals stripping the
first application's result, so normalization is idempotent exactly up to
residual edge whitespace; in particular it is idempotent on every input
whose whitespace consists only of spaces and full-width spaces. -/
theorem normalize_idempotent_characterization :
    (∀ s : String, clean_answer (clean_answer s) = pyStrip (clean_answer s)) ∧
    (∀ s : String, onlySpaceWs s → clean_answer (clean_answer s) = clean_answer s) :=
  ⟨clean_clean, clean_idem_of_good⟩

theorem normalize_idempotent_characterization_witness :
    clean_answer (clean_answer " Maru yama ") = clean_answer " Maru yama " :=
  normalize_idempotent_characterization.2 " Maru yama "
    (by unfold onlySpaceWs; decide)

/-- C2 counterexample: an input that differs from the canonical answer of
L06 only by one inserted whitespace character (a tab) is judged
incorrect, because clean_answer removes only the two space characters,
not every kind of internal whitespace. -/
theorem normalization_whitespace_counterexample :
    isPyWs '\t' = true ∧
    "5387\t8337515".data = "5387".data ++ '\t' :: "8337515".data ∧
    clean_answer "5387 8337515" = clean_answer "53878337515" ∧
    clean_answer "5387\t8337515" ≠ clean_answer "53878337515" ∧
    (handleMessage dbCatalog (some "L06_ANSWERING") "5387\t8337515").map (·.correct) =
      some false := by
  exact ⟨by decide, by decide, by decide, by decide, by decide⟩

/-- C2 amended: while answering a catalog level, an input is judged
correct exactly when clean_answer(input) equals clean_answer(canonical
answer); and for inputs whose whitespace is only the removed space
characters, differences confined to letter case, the removed punctuation
set and those space characters never cause a mismatch.  Other internal
whitespace (tab, newline) does break matching. -/
theorem answer_judged_by_normalization :
    (∀ (L : String) (sp : LevelSpec), LEVEL_DATA L = some sp →
      ∀ input : String, stripUpper input ≠ "RESET" → stripUpper input ≠ "重置" →
      (((handleMessage dbCatalog (some (L ++ "_ANSWERING")) input).map (·.correct)
          = some true) ↔ clean_answer input = clean_answer sp.answer)) ∧
    (∀ s t : String, onlySpaceWs s → onlySpaceWs t →
      (s.data.map Char.toLower).filter keepChar = (t.data.map Char.toLower).filter keepChar →
      clean_answer s = clean_answer t) := by
  constructor
  · intro L sp hL input h1 h2
    unfold LEVEL_DATA at hL
    split_ifs at hL with hif1 hif2 hif3 hif4 hif5 hif6
    · obtain rfl := eq_of_beq hif1; injection hL with h0; subst h0
      rw [show ("L01" ++ "_ANSWERING" : String) = "L01_ANSWERING" from by decide,
          evalAnswering01 input h1 h2]
      by_cases hc : clean_answer input = clean_answer spec01.answer
      · rw [beq_iff_eq.mpr hc]; simp [hc]
      · rw [beq_eq_false_iff_ne.mpr hc]; simp [hc]
    · obtain rfl := eq_of_beq hif2; injection hL with h0; subst h0
      rw [show ("L02" ++ "_ANSWERING" : String) = "L02_ANSWERING" from by decide,
          evalAnswering02 input h1 h2]
      by_cases hc : clean_answer input = clean_answer spec02.answer
      · rw [beq_iff_eq.mpr hc]; simp [hc]
      · rw [beq_eq_false_iff_ne.mpr hc]; simp [hc]
    · obtain rfl := eq_of_beq hif3; injection hL with h0; subst h0
      rw [show ("L03" ++ "_ANSWERING" : String) = "L03_ANSWERING" from by decide,
          evalAnswering03 input h1 h2]
      by_cases hc : clean_answer input = clean_answer spec03.answer
      · rw [beq_iff_eq.mpr hc]; simp [hc]
      · rw [beq_eq_false_iff_ne.mpr hc]; simp [hc]
    · obtain rfl := eq_of_beq hif4; injection hL with h0; subst h0
      rw [show ("L04" ++ "_ANSWERING" : String) = "L04_ANSWERING" from by decide,
          evalAnswering04 input h1 h2]
      by_cases hc : clean_answer input = clean_answer spec04.answer
      · rw [beq_iff_eq.mpr hc]; simp [hc]
      · rw [beq_eq_false_iff_ne.mpr hc]; simp [hc]
    · obtain rfl := eq_of_beq hif5; injection hL with h0; subst h0
      rw [show ("L05" ++ "_ANSWERING" : String) = "L05_ANSWERING" from by decide,
          evalAnswering05 input h1 h2]
      by_cases hc : clean_answer input = clean_answer spec05.answer
      · rw [beq_iff_eq.mpr hc]; simp [hc]
      · rw [beq_eq_false_iff_ne.mpr hc]; simp [hc]
    · obtain rfl := eq_of_beq hif6; injection hL with h0; subst h0
      rw [show ("L06" ++ "_ANSWERING" : String) = "L06_ANSWERING" from by decide,
          evalAnswering06 input h1 h2]
      by_cases hc : clean_answer input = clean_answer spec06.answer
      · rw [beq_iff_eq.mpr hc]; simp [hc]
      · rw [beq_eq_false_iff_ne.mpr hc]; simp [hc]
  · exact fun s t hs ht h => clean_eq_of_filter_eq hs ht h

theorem answer_judged_by_normalization_witness :
    (handleMessage dbCatalog (some "L03_ANSWERING") "保安。").map (·.correct) = some true :=
  (answer_judged_by_normalization.1 "L03" spec03 (by decide) "保安。"
    (by decide) (by decide)).mpr (by decide)

/-- Every state token the post-fetch state machine writes is WELCOME,
COMPLETED, or the ANSWERING/WAITING token of a catalogued level id,
provided the already-performed writes are and the first level is
catalogued. -/
theorem handleFetched_writes_valid (cat : String → Option LevelRecord)
    (cs : String) (w1 : List String) (su norm : String)
    (hw1 : ∀ w ∈ w1, validWrite cat w) (hL : (cat "L01").isSome)
    (r : StepResult) (h : handleFetched cat cs w1 su norm = some r) :
    ∀ w ∈ r.writes, validWrite cat w := by
  unfold handleFetched at h
  split at h
  · injection h with h0; subst h0; exact hw1
  · split at h
    · split at h
      · split at h
        · injection h with h0; subst h0
          intro w hw
          rcases List.mem_append.mp hw with hw | hw
          · exact hw1 w hw
          · rw [List.mem_singleton] at hw; subst hw
            obtain ⟨rec, hrec⟩ := Option.isSome_iff_exists.mp hL
            exact Or.inr (Or.inr ⟨"L01", rec, hrec, Or.inl rfl⟩)
        · injection h with h0; subst h0
          intro w hw
          rcases List.mem_append.mp hw with hw | hw
          · exact hw1 w hw
          · rw [List.mem_singleton] at hw; subst hw
            obtain ⟨rec, hrec⟩ := Option.isSome_iff_exists.mp hL
            exact Or.inr (Or.inr ⟨"L01", rec, hrec, Or.inl rfl⟩)
      · injection h with h0; subst h0; exact hw1
    · split at h
      · injection h with h0; subst h0; exact hw1
      · rename_i rec hrec
        split at h
        · split at h
          · split at h
            · rename_i nr heq
              injection h with h0; subst h0
              intro w hw
              rcases List.mem_append.mp hw with hw | hw
              · exact hw1 w hw
              · rw [List.mem_singleton] at hw; subst hw
                exact Or.inr (Or.inr ⟨nextIdOf (baseOf cs), nr, heq, Or.inl rfl⟩)
            · injection h with h0; subst h0
              intro w hw
              rcases List.mem_append.mp hw with hw | hw
              · exact hw1 w hw
              · rw [List.mem_singleton] at hw; subst hw; exact Or.inr (Or.inl rfl)
          · injection h with h0; subst h0; exact hw1
        · split at h
          · split at h
            · split at h
              · injection h with h0; subst h0
                intro w hw
                rcases List.mem_append.mp hw with hw | hw
                · exact hw1 w hw
                · rw [List.mem_singleton] at hw; subst hw; exact Or.inr (Or.inl rfl)
              · split at h
                · exact absurd h (by simp)
                · injection h with h0; subst h0
                  intro w hw
                  rcases List.mem_append.mp hw with hw | hw
                  · exact hw1 w hw
                  · rw [List.mem_singleton] at hw; subst hw
                    exact Or.inr (Or.inr ⟨baseOf cs, rec, hrec, Or.inr rfl⟩)
            · injection h with h0; subst h0; exact hw1
          · injection h with h0; subst h0; exact hw1

/-- C9: every state token handle_message or handle_follow ever writes to
the store (first-contact INSERT, reset, start, correct answer, arrival
confirmation) lies in the set WELCOME, COMPLETED, or <id>_ANSWERING /
<id>_WAITING for a catalogued id, for any catalog containing L01. -/
theorem writes_are_valid_states (cat : String → Option LevelRecord)
    (stored : Option String) (input : String) (hL : (cat "L01").isSome)
    (r : StepResult) (h : handleMessage cat stored input = some r) :
    (∀ w ∈ r.writes, validWrite cat w) ∧
    (∀ w ∈ (handleFollow stored).writes, validWrite cat w) := by
  constructor
  · unfold handleMessage at h
    by_cases hres : (stripUpper input == "RESET" || stripUpper input == "重置") = true
    · rw [if_pos hres] at h
      injection h with h0; subst h0
      intro w hw
      rw [List.mem_singleton] at hw; subst hw
      exact Or.inl rfl
    · rw [if_neg hres] at h
      refine handleFetched_writes_valid cat (stored.getD "WELCOME") _
        (stripUpper input) (clean_answer input) ?_ hL r h
      split
      · intro w hw; exact absurd hw (List.not_mem_nil w)
      · intro w hw; rw [List.mem_singleton] at hw; subst hw; exact Or.inl rfl
  · cases stored with
    | some s => intro w hw; exact absurd hw (List.not_mem_nil w)
    | none =>
      intro w hw
      rw [show (handleFollow none).writes = ["WELCOME"] from rfl] at hw
      rw [List.mem_singleton] at hw; subst hw
      exact Or.inl rfl

theorem writes_are_valid_states_witness :
    validWrite dbCatalog "L01_WAITING" :=
  (writes_are_valid_states dbCatalog (some "L01_ANSWERING") "maruyama" (by decide)
    { store := some "L01_WAITING", writes := ["L01_WAITING"]
      replies := [txt spec01.next_clue, txt msgTravelPrompt], correct := true }
    (by decide)).1 "L01_WAITING" (by decide)
